import Mathlib

/-!
Shallow embedding of the bitbucket-mcp server core (the modular variant under
`src/`): the JSON data model, the axios-backed service classes
(`RepositoryService`, `PullRequestService`, `BranchingModelService`), the
logger's `sanitizeError`, the logging interceptors of `base.ts` and
`bitbucket.ts`, the static `TOOL_DEFINITIONS` registry, and the MCP dispatch
loop of `index.ts` (`initializeToolHandlers` / `setupToolHandlers`).

JavaScript semantics that matter here are modelled explicitly: `undefined` is
a first-class JSON-model value, property lookup on a missing key yields
`undefined`, truthiness follows JS rules, and bracket lookup on an object
literal falls back to the inherited properties of `Object.prototype`.
-/

namespace BitbucketMcp

/-- JSON-like runtime values, with `undefined` for JavaScript's `undefined`. -/
inductive Json where
  | undefined : Json
  | null : Json
  | bool (b : Bool) : Json
  | num (n : Int) : Json
  | str (s : String) : Json
  | arr (elems : List Json) : Json
  | obj (fields : List (String × Json)) : Json

/-- Property access `value[key]` as the services use it (always behind
optional chaining or on known objects): a missing key yields `undefined`. -/
def Json.getProp : Json → String → Json
  | .obj fields, k => (fields.lookup k).getD .undefined
  | _, _ => .undefined

/-- JavaScript truthiness. -/
def Json.truthy : Json → Bool
  | .undefined => false
  | .null => false
  | .bool b => b
  | .num n => n != 0
  | .str s => !s.isEmpty
  | .arr _ => true
  | .obj _ => true

/-- `String(v)` / template-literal conversion of a value. -/
def Json.toDisplayString : Json → String
  | .undefined => "undefined"
  | .null => "null"
  | .bool b => cond b "true" "false"
  | .num n => toString n
  | .str s => s
  | .arr _ => ""
  | .obj _ => "[object Object]"

/-- Escape a character for a JSON string literal (quotes and backslashes,
enough for the values the theorems exercise). -/
def escapeChar (c : Char) : String :=
  if c = '"' then "\\\"" else if c = '\\' then "\\\\" else String.singleton c

/-- Escape a string for a JSON string literal. -/
def escapeString (s : String) : String :=
  s.data.foldl (fun acc c => acc ++ escapeChar c) ""

mutual

/-- `JSON.stringify(v, null, 2)`, modelled up to insignificant whitespace
(the services only ever compare / forward whole serialized values, never
re-parse them). `undefined` cannot occur in the positions the theorems
exercise; it is rendered as a placeholder. -/
def Json.stringify : Json → String
  | .undefined => "undefined"
  | .null => "null"
  | .bool b => cond b "true" "false"
  | .num n => toString n
  | .str s => "\"" ++ escapeString s ++ "\""
  | .arr elems => "[" ++ String.intercalate "," (stringifyList elems) ++ "]"
  | .obj fields => "\x7b" ++ String.intercalate "," (stringifyFields fields) ++ "\x7d"

/-- Serialize the elements of a JSON array. -/
def stringifyList : List Json → List String
  | [] => []
  | j :: js => j.stringify :: stringifyList js

/-- Serialize the fields of a JSON object. -/
def stringifyFields : List (String × Json) → List String
  | [] => []
  | (k, v) :: fs => ("\"" ++ escapeString k ++ "\":" ++ v.stringify) :: stringifyFields fs

end

/-- Substring containment on strings (used to state what an error message
does or does not contain). -/
def strContains (s pat : String) : Bool :=
  decide (pat.data <:+: s.data)

/-! ## Configuration, HTTP and protocol model -/

/-- Startup configuration built by `createBitbucketConfig` (config/bitbucket.ts). -/
structure BitbucketConfig where
  baseUrl : String
  token : Option String
  username : Option String
  password : Option String
  defaultWorkspace : Option String

/-- An outbound HTTP request as assembled by the axios-backed services. -/
structure HttpRequest where
  method : String
  url : String
  params : List (String × Json)
  headers : List (String × String)
  body : Option Json

/-- An axios response: status, status text, body data, response headers. -/
structure AxiosResponse where
  status : Int
  statusText : String
  data : Json
  headers : List (String × String)

/-- An axios error: its own message (e.g. "Request failed with status code 401"),
the optional upstream response, and the request config it was issued with. -/
structure AxiosError where
  message : String
  response : Option AxiosResponse
  config : Option HttpRequest

/-- Behavior of the upstream REST backend for one HTTP call. -/
def Backend : Type := HttpRequest → Except AxiosError AxiosResponse

/-- MCP SDK error codes used by this server. -/
inductive ErrorCode where
  | MethodNotFound : ErrorCode
  | InvalidParams : ErrorCode
  | InternalError : ErrorCode
deriving DecidableEq, Repr

/-- JSON-RPC numeric value of each error code. -/
def ErrorCode.codeNum : ErrorCode → Int
  | .MethodNotFound => -32601
  | .InvalidParams => -32602
  | .InternalError => -32603

/-- A raised JavaScript error: an SDK `McpError`, an axios error, or a
`TypeError` (the latter arises when a non-function inherited property is
invoked as a handler). -/
inductive JsError where
  | mcp (code : ErrorCode) (msg : String) : JsError
  | axios (e : AxiosError) : JsError
  | typeError (msg : String) : JsError

/-- The `message` property of a raised error. `McpError`'s constructor sets
its message to "MCP error <code>: <message>". -/
def JsError.message : JsError → String
  | .mcp code msg => "MCP error " ++ toString code.codeNum ++ ": " ++ msg
  | .axios e => e.message
  | .typeError msg => msg

/-- One content block of a tool result. -/
structure ContentBlock where
  type : String
  text : String

/-- The success envelope (`CallToolResult` / `McpResponse`). -/
structure McpResponse where
  content : List ContentBlock

/-- The literal success envelope every service method builds:
`content: [ (type: "text", text: ...) ]`. -/
def textResult (text : String) : McpResponse :=
  ⟨[⟨"text", text⟩]⟩

/-- A service method either returns a response or throws a `JsError`. -/
def ServiceResult : Type := Except JsError McpResponse

/-- The catch block shared by every service method: whatever was thrown is
rewrapped as `McpError(InternalError, "<opMsg>: " + error.message)`. Every
value raised in this codebase is an `Error` instance, so the
`error instanceof Error ? error.message : String(error)` template always
takes the `error.message` branch. -/
def serviceCatch (opMsg : String) : ServiceResult → ServiceResult
  | .ok r => .ok r
  | .error e => .error (.mcp .InternalError (opMsg ++ ": " ++ e.message))

/-- Perform one backend call inside a service `try` block: an axios failure
is raised as a thrown axios error. -/
def callBackend (backend : Backend) (req : HttpRequest) : Except JsError AxiosResponse :=
  match backend req with
  | .error e => .error (.axios e)
  | .ok resp => .ok resp

/-- JS truthiness of an optional string parameter (`undefined` and the empty
string are falsy). -/
def strTruthy : Option String → Bool
  | none => false
  | some s => !s.isEmpty

/-- Raw text of a text-typed axios response (`responseType: "text"`): the
data is a string and is forwarded verbatim. -/
def Json.asRawText : Json → String
  | .str s => s
  | j => j.toDisplayString

/-! ## RepositoryService (src/services/repository.ts) -/

namespace RepositoryService

/-- The GET request issued by `listRepositories`. -/
def listRepositoriesRequest (wsName : String) (limit : Int) : HttpRequest :=
  ⟨"GET", "/repositories/" ++ wsName, [("limit", .num limit)], [], none⟩

/-- Body of the `try` block of `listRepositories` (repository.ts:14-41): the
optional `workspace` falls back to the configured default workspace; if
neither is truthy an `InvalidParams` `McpError` is raised (inside the `try`). -/
def listRepositoriesTry (cfg : BitbucketConfig) (backend : Backend)
    (workspace : Option String) (limitArg : Option Int) : ServiceResult :=
  let limit := limitArg.getD 10
  let wsName := if strTruthy workspace then workspace else cfg.defaultWorkspace
  if !(strTruthy wsName) then
    .error (.mcp .InvalidParams "Workspace must be provided either as a parameter or through BITBUCKET_WORKSPACE environment variable")
  else
    match backend (listRepositoriesRequest (wsName.getD "") limit) with
    | .error e => .error (.axios e)
    | .ok resp => .ok (textResult ((resp.data.getProp "values").stringify))

/-- `RepositoryService.listRepositories` (repository.ts:10-54): the `try`
body wrapped in the method's own catch, which rewraps anything thrown —
including the `InvalidParams` error above — as `InternalError`. -/
def listRepositories (cfg : BitbucketConfig) (backend : Backend)
    (workspace : Option String) (limitArg : Option Int) : ServiceResult :=
  serviceCatch "Failed to list repositories" (listRepositoriesTry cfg backend workspace limitArg)

/-- The GET request issued by `getRepository`. -/
def getRepositoryRequest (workspace repo_slug : String) : HttpRequest :=
  ⟨"GET", "/repositories/" ++ workspace ++ "/" ++ repo_slug, [], [], none⟩

/-- `RepositoryService.getRepository` (repository.ts:56-91): full body
passthrough. -/
def getRepository (backend : Backend) (workspace repo_slug : String) : ServiceResult :=
  serviceCatch "Failed to get repository" do
    let resp ← callBackend backend (getRepositoryRequest workspace repo_slug)
    pure (textResult resp.data.stringify)

end RepositoryService

/-! ## PullRequestService (src/services/pullrequest.ts) -/

namespace PullRequestService

/-- The GET request issued by `getPullRequests`; an `undefined` state filter
is dropped from the query params by axios. -/
def getPullRequestsRequest (workspace repo_slug : String)
    (state : Option String) (limit : Int) : HttpRequest :=
  ⟨"GET", "/repositories/" ++ workspace ++ "/" ++ repo_slug ++ "/pullrequests",
    (match state with | some s => [("state", Json.str s)] | none => []) ++
      [("limit", .num limit)],
    [], none⟩

/-- `PullRequestService.getPullRequests` (pullrequest.ts:7-52): unwraps the
response body's `values` array. -/
def getPullRequests (backend : Backend) (workspace repo_slug : String)
    (state : Option String) (limitArg : Option Int) : ServiceResult :=
  serviceCatch "Failed to get pull requests" do
    let resp ← callBackend backend
      (getPullRequestsRequest workspace repo_slug state (limitArg.getD 10))
    pure (textResult ((resp.data.getProp "values").stringify))

/-- The POST body built by `createPullRequest`: reviewer usernames are
wrapped into objects, `close_source_branch` is unconditionally true. -/
def createPullRequestBody (title description sourceBranch targetBranch : String)
    (reviewers : Option (List String)) : Json :=
  .obj [("title", .str title), ("description", .str description),
    ("source", .obj [("branch", .obj [("name", .str sourceBranch)])]),
    ("destination", .obj [("branch", .obj [("name", .str targetBranch)])]),
    ("reviewers", .arr ((reviewers.getD []).map (fun u => .obj [("username", .str u)]))),
    ("close_source_branch", .bool true)]

/-- `PullRequestService.createPullRequest` (pullrequest.ts:54-120). -/
def createPullRequest (backend : Backend) (workspace repo_slug : String)
    (title description sourceBranch targetBranch : String)
    (reviewers : Option (List String)) : ServiceResult :=
  serviceCatch "Failed to create pull request" do
    let resp ← callBackend backend
      ⟨"POST", "/repositories/" ++ workspace ++ "/" ++ repo_slug ++ "/pullrequests",
        [], [], some (createPullRequestBody title description sourceBranch targetBranch reviewers)⟩
    pure (textResult resp.data.stringify)

/-- `PullRequestService.getPullRequest` (pullrequest.ts:122-160): full body
passthrough. -/
def getPullRequest (backend : Backend) (workspace repo_slug pull_request_id : String) :
    ServiceResult :=
  serviceCatch "Failed to get pull request details" do
    let resp ← callBackend backend
      ⟨"GET", "/repositories/" ++ workspace ++ "/" ++ repo_slug ++ "/pullrequests/" ++ pull_request_id,
        [], [], none⟩
    pure (textResult resp.data.stringify)

/-- The partial-update PUT body of `updatePullRequest` (pullrequest.ts:176-179):
a field enters the body only when the parameter is not `undefined`. -/
def updatePullRequestData (title description : Option String) : List (String × Json) :=
  (match title with | some t => [("title", Json.str t)] | none => []) ++
    (match description with | some d => [("description", Json.str d)] | none => [])

/-- The PUT request issued by `updatePullRequest`. -/
def updatePullRequestRequest (workspace repo_slug pull_request_id : String)
    (title description : Option String) : HttpRequest :=
  ⟨"PUT", "/repositories/" ++ workspace ++ "/" ++ repo_slug ++ "/pullrequests/" ++ pull_request_id,
    [], [], some (.obj (updatePullRequestData title description))⟩

/-- `PullRequestService.updatePullRequest` (pullrequest.ts:162-208). -/
def updatePullRequest (backend : Backend) (workspace repo_slug pull_request_id : String)
    (title description : Option String) : ServiceResult :=
  serviceCatch "Failed to update pull request" do
    let resp ← callBackend backend
      (updatePullRequestRequest workspace repo_slug pull_request_id title description)
    pure (textResult resp.data.stringify)

/-- `PullRequestService.getPullRequestActivity` (pullrequest.ts:210-248):
unwraps `values`. -/
def getPullRequestActivity (backend : Backend)
    (workspace repo_slug pull_request_id : String) : ServiceResult :=
  serviceCatch "Failed to get pull request activity" do
    let resp ← callBackend backend
      ⟨"GET", "/repositories/" ++ workspace ++ "/" ++ repo_slug ++ "/pullrequests/" ++ pull_request_id ++ "/activity",
        [], [], none⟩
    pure (textResult ((resp.data.getProp "values").stringify))

/-- `PullRequestService.approvePullRequest` (pullrequest.ts:250-288). -/
def approvePullRequest (backend : Backend)
    (workspace repo_slug pull_request_id : String) : ServiceResult :=
  serviceCatch "Failed to approve pull request" do
    let resp ← callBackend backend
      ⟨"POST", "/repositories/" ++ workspace ++ "/" ++ repo_slug ++ "/pullrequests/" ++ pull_request_id ++ "/approve",
        [], [], none⟩
    pure (textResult resp.data.stringify)

/-- The DELETE request issued by `unapprovePullRequest`. -/
def unapprovePullRequestRequest (workspace repo_slug pull_request_id : String) : HttpRequest :=
  ⟨"DELETE", "/repositories/" ++ workspace ++ "/" ++ repo_slug ++ "/pullrequests/" ++ pull_request_id ++ "/approve",
    [], [], none⟩

/-- `PullRequestService.unapprovePullRequest` (pullrequest.ts:290-328): the
backend response is discarded and a fixed confirmation text is returned. -/
def unapprovePullRequest (backend : Backend)
    (workspace repo_slug pull_request_id : String) : ServiceResult :=
  serviceCatch "Failed to unapprove pull request" do
    let _ ← callBackend backend
      (unapprovePullRequestRequest workspace repo_slug pull_request_id)
    pure (textResult "Pull request approval removed successfully.")

/-- The POST body of `declinePullRequest`: `message ? buildBody : emptyBody`
(JS truthiness). -/
def declinePullRequestData (message : Option String) : List (String × Json) :=
  if strTruthy message then [("message", Json.str (message.getD ""))] else []

/-- `PullRequestService.declinePullRequest` (pullrequest.ts:330-373). -/
def declinePullRequest (backend : Backend)
    (workspace repo_slug pull_request_id : String) (message : Option String) : ServiceResult :=
  serviceCatch "Failed to decline pull request" do
    let resp ← callBackend backend
      ⟨"POST", "/repositories/" ++ workspace ++ "/" ++ repo_slug ++ "/pullrequests/" ++ pull_request_id ++ "/decline",
        [], [], some (.obj (declinePullRequestData message))⟩
    pure (textResult resp.data.stringify)

/-- The POST body of `mergePullRequest` (pullrequest.ts:390-393): a truthy
`message` is sent as `message`, a truthy `strategy` as `merge_strategy`. -/
def mergePullRequestData (message strategy : Option String) : List (String × Json) :=
  (if strTruthy message then [("message", Json.str (message.getD ""))] else []) ++
    (if strTruthy strategy then [("merge_strategy", Json.str (strategy.getD ""))] else [])

/-- The POST request issued by `mergePullRequest`. -/
def mergePullRequestRequest (workspace repo_slug pull_request_id : String)
    (message strategy : Option String) : HttpRequest :=
  ⟨"POST", "/repositories/" ++ workspace ++ "/" ++ repo_slug ++ "/pullrequests/" ++ pull_request_id ++ "/merge",
    [], [], some (.obj (mergePullRequestData message strategy))⟩

/-- `PullRequestService.mergePullRequest` (pullrequest.ts:375-422). -/
def mergePullRequest (backend : Backend)
    (workspace repo_slug pull_request_id : String)
    (message strategy : Option String) : ServiceResult :=
  serviceCatch "Failed to merge pull request" do
    let resp ← callBackend backend
      (mergePullRequestRequest workspace repo_slug pull_request_id message strategy)
    pure (textResult resp.data.stringify)

/-- `PullRequestService.getPullRequestComments` (pullrequest.ts:424-462):
unwraps `values`. -/
def getPullRequestComments (backend : Backend)
    (workspace repo_slug pull_request_id : String) : ServiceResult :=
  serviceCatch "Failed to get pull request comments" do
    let resp ← callBackend backend
      ⟨"GET", "/repositories/" ++ workspace ++ "/" ++ repo_slug ++ "/pullrequests/" ++ pull_request_id ++ "/comments",
        [], [], none⟩
    pure (textResult ((resp.data.getProp "values").stringify))

/-- `PullRequestService.getPullRequestDiff` (pullrequest.ts:464-508): raw
text passthrough with `Accept: text/plain`. -/
def getPullRequestDiff (backend : Backend)
    (workspace repo_slug pull_request_id : String) : ServiceResult :=
  serviceCatch "Failed to get pull request diff" do
    let resp ← callBackend backend
      ⟨"GET", "/repositories/" ++ workspace ++ "/" ++ repo_slug ++ "/pullrequests/" ++ pull_request_id ++ "/diff",
        [], [("Accept", "text/plain")], none⟩
    pure (textResult resp.data.asRawText)

/-- `PullRequestService.getPullRequestCommits` (pullrequest.ts:510-548):
unwraps `values`. -/
def getPullRequestCommits (backend : Backend)
    (workspace repo_slug pull_request_id : String) : ServiceResult :=
  serviceCatch "Failed to get pull request commits" do
    let resp ← callBackend backend
      ⟨"GET", "/repositories/" ++ workspace ++ "/" ++ repo_slug ++ "/pullrequests/" ++ pull_request_id ++ "/commits",
        [], [], none⟩
    pure (textResult ((resp.data.getProp "values").stringify))

end PullRequestService

/-! ## BranchingModelService (src/services/branchingmodel.ts) -/

namespace BranchingModelService

/-- The partial PUT body shared by both branching-model update methods
(branchingmodel.ts:101-104, 262-265): a section enters the body only when
the corresponding argument is truthy. -/
def branchingModelUpdateData (development production branch_types : Json) :
    List (String × Json) :=
  (if development.truthy then [("development", development)] else []) ++
    (if production.truthy then [("production", production)] else []) ++
    (if branch_types.truthy then [("branch_types", branch_types)] else [])

/-- `getRepositoryBranchingModel` (branchingmodel.ts:10-45). -/
def getRepositoryBranchingModel (backend : Backend) (workspace repo_slug : String) :
    ServiceResult :=
  serviceCatch "Failed to get repository branching model" do
    let resp ← callBackend backend
      ⟨"GET", "/repositories/" ++ workspace ++ "/" ++ repo_slug ++ "/branching-model",
        [], [], none⟩
    pure (textResult resp.data.stringify)

/-- `getRepositoryBranchingModelSettings` (branchingmodel.ts:47-82). -/
def getRepositoryBranchingModelSettings (backend : Backend) (workspace repo_slug : String) :
    ServiceResult :=
  serviceCatch "Failed to get repository branching model settings" do
    let resp ← callBackend backend
      ⟨"GET", "/repositories/" ++ workspace ++ "/" ++ repo_slug ++ "/branching-model/settings",
        [], [], none⟩
    pure (textResult resp.data.stringify)

/-- `updateRepositoryBranchingModelSettings` (branchingmodel.ts:84-132). -/
def updateRepositoryBranchingModelSettings (backend : Backend)
    (workspace repo_slug : String) (development production branch_types : Json) :
    ServiceResult :=
  serviceCatch "Failed to update repository branching model settings" do
    let resp ← callBackend backend
      ⟨"PUT", "/repositories/" ++ workspace ++ "/" ++ repo_slug ++ "/branching-model/settings",
        [], [], some (.obj (branchingModelUpdateData development production branch_types))⟩
    pure (textResult resp.data.stringify)

/-- `getEffectiveRepositoryBranchingModel` (branchingmodel.ts:134-169). -/
def getEffectiveRepositoryBranchingModel (backend : Backend)
    (workspace repo_slug : String) : ServiceResult :=
  serviceCatch "Failed to get effective repository branching model" do
    let resp ← callBackend backend
      ⟨"GET", "/repositories/" ++ workspace ++ "/" ++ repo_slug ++ "/effective-branching-model",
        [], [], none⟩
    pure (textResult resp.data.stringify)

/-- `getProjectBranchingModel` (branchingmodel.ts:171-206). -/
def getProjectBranchingModel (backend : Backend) (workspace project_key : String) :
    ServiceResult :=
  serviceCatch "Failed to get project branching model" do
    let resp ← callBackend backend
      ⟨"GET", "/workspaces/" ++ workspace ++ "/projects/" ++ project_key ++ "/branching-model",
        [], [], none⟩
    pure (textResult resp.data.stringify)

/-- `getProjectBranchingModelSettings` (branchingmodel.ts:208-243). -/
def getProjectBranchingModelSettings (backend : Backend) (workspace project_key : String) :
    ServiceResult :=
  serviceCatch "Failed to get project branching model settings" do
    let resp ← callBackend backend
      ⟨"GET", "/workspaces/" ++ workspace ++ "/projects/" ++ project_key ++ "/branching-model/settings",
        [], [], none⟩
    pure (textResult resp.data.stringify)

/-- `updateProjectBranchingModelSettings` (branchingmodel.ts:245-293). -/
def updateProjectBranchingModelSettings (backend : Backend)
    (workspace project_key : String) (development production branch_types : Json) :
    ServiceResult :=
  serviceCatch "Failed to update project branching model settings" do
    let resp ← callBackend backend
      ⟨"PUT", "/workspaces/" ++ workspace ++ "/projects/" ++ project_key ++ "/branching-model/settings",
        [], [], some (.obj (branchingModelUpdateData development production branch_types))⟩
    pure (textResult resp.data.stringify)

end BranchingModelService

/-! ## Logger sanitization (src/utils/logger.ts) -/

/-- View of an arbitrary caught JavaScript value as `sanitizeError` probes it:
its raw value (for the `!error` check and the `String(error)` fallback), its
`message` / `name` / `stack` properties, its `response` property, and whether
it is an `Error` instance. -/
structure JsErrorView where
  raw : Json
  message : String
  name : String
  stack : String
  response : Option AxiosResponse
  isError : Bool

/-- The properties of an object that are observable in a serialized log
record (a property assigned `undefined` is dropped by `JSON.stringify`). -/
def Json.definedProps : Json → List (String × Json)
  | .obj fields => fields.filter (fun p => match p.2 with | .undefined => false | _ => true)
  | _ => []

/-- `sanitizeError` (logger.ts:50-74). For a truthy `error.response` the
result has exactly `message`, `status`, `statusText` (never `response.data`
or headers); for a plain `Error` it has `message`, `name`, and a `stack`
that is `undefined` when `NODE_ENV` is "production"; a falsy input is
returned unchanged and a non-`Error` value is reduced to `String(error)`. -/
def sanitizeError (nodeEnvProduction : Bool) (error : JsErrorView) : Json :=
  if !error.raw.truthy then error.raw
  else
    match error.response with
    | some r =>
        .obj [("message", .str error.message), ("status", .num r.status),
          ("statusText", .str r.statusText)]
    | none =>
        if error.isError then
          .obj [("message", .str error.message), ("name", .str error.name),
            ("stack", if nodeEnvProduction then Json.undefined else .str error.stack)]
        else
          .obj [("message", .str error.raw.toDisplayString)]

/-! ## Logging interceptors (src/services/base.ts and src/services/bitbucket.ts) -/

/-- One winston log record: level, message, and structured metadata. -/
structure LogRecord where
  level : String
  message : String
  meta : List (String × Json)

namespace BaseService

/-- The record logged by the request interceptor (base.ts:48-61):
method (uppercased), url, and query params. -/
def requestLogRecord (config : HttpRequest) : LogRecord :=
  ⟨"info", "API Request",
    [("method", .str config.method.toUpper), ("url", .str config.url),
      ("params", .obj config.params)]⟩

/-- The record logged by the response interceptor on success (base.ts:64-71):
status and the request url. -/
def responseLogRecord (status : Int) (url : String) : LogRecord :=
  ⟨"info", "API Response", [("status", .num status), ("url", .str url)]⟩

/-- The record logged by the response interceptor on error (base.ts:72-80):
status, statusText, url, method — and nothing else. -/
def apiErrorLogRecord (e : AxiosError) : LogRecord :=
  ⟨"error", "API Error",
    [("status", match e.response with | some r => .num r.status | none => .undefined),
      ("statusText", match e.response with | some r => .str r.statusText | none => .undefined),
      ("url", match e.config with | some c => .str c.url | none => .undefined),
      ("method", match e.config with | some c => .str c.method | none => .undefined)]⟩

end BaseService

namespace BitbucketAPI

/-- The record logged by the legacy `BitbucketAPI` response interceptor on
error (bitbucket.ts:44-55): status, the error message, the RAW response body
(`error.response?.data`), and the url. -/
def bitbucketApiErrorLogRecord (e : AxiosError) : LogRecord :=
  ⟨"error", "Bitbucket API error",
    [("status", match e.response with | some r => .num r.status | none => .undefined),
      ("message", .str e.message),
      ("data", match e.response with | some r => r.data | none => .undefined),
      ("url", match e.config with | some c => .str c.url | none => .undefined)]⟩

end BitbucketAPI

/-! ## Tool registry (src/schemas/tools.ts) -/

/-- The `name` fields of the 21 entries of the static `TOOL_DEFINITIONS`
registry, in source order (tools.ts:8-441). -/
def TOOL_DEFINITIONS_names : List String :=
  ["listRepositories", "getRepository", "getPullRequests", "createPullRequest",
   "getPullRequest", "updatePullRequest", "getPullRequestActivity",
   "approvePullRequest", "unapprovePullRequest", "declinePullRequest",
   "mergePullRequest", "getPullRequestComments", "getPullRequestDiff",
   "getPullRequestCommits", "getRepositoryBranchingModel",
   "getRepositoryBranchingModelSettings", "updateRepositoryBranchingModelSettings",
   "getEffectiveRepositoryBranchingModel", "getProjectBranchingModel",
   "getProjectBranchingModelSettings", "updateProjectBranchingModelSettings"]

/-! ## Dispatcher (index.ts: initializeToolHandlers / setupToolHandlers)

The handlers extract arguments from the untyped argument bag by blind `as`
casts (`args.workspace as string`); the embedding extracts string-or-absent
values, which is what every registered tool receives (non-string argument
values are typed away by the source's casts and outside the claims'
scope). -/

/-- Extraction of a required string argument. A missing value is the string
the JS template interpolation would produce for `undefined`. -/
def argDisplay (args : Json) (k : String) : String :=
  (args.getProp k).toDisplayString

/-- Extraction of an optional string argument (`undefined` stays absent). -/
def argOptStr (args : Json) (k : String) : Option String :=
  match args.getProp k with
  | .undefined => none
  | v => some v.toDisplayString

/-- Extraction of an optional numeric argument. -/
def argOptInt (args : Json) (k : String) : Option Int :=
  match args.getProp k with
  | .num n => some n
  | _ => none

/-- Extraction of an optional string-array argument (reviewers). -/
def argStrList (args : Json) (k : String) : Option (List String) :=
  match args.getProp k with
  | .arr es => some (es.map Json.toDisplayString)
  | _ => none

/-- The tool handler map built by `initializeToolHandlers` (index.ts:84-243),
as the ordered key/value list of the object literal it returns. Own-property
lookup on this literal is `List.lookup`; the inherited `Object.prototype`
properties that plain bracket lookup would also find are modelled in
`dispatch` below. -/
def toolHandlerList (cfg : BitbucketConfig) (backend : Backend) :
    List (String × (Json → ServiceResult)) :=
  [("listRepositories", fun args =>
      RepositoryService.listRepositories cfg backend
        (argOptStr args "workspace") (argOptInt args "limit")),
   ("getRepository", fun args =>
      RepositoryService.getRepository backend
        (argDisplay args "workspace") (argDisplay args "repo_slug")),
   ("getPullRequests", fun args =>
      PullRequestService.getPullRequests backend
        (argDisplay args "workspace") (argDisplay args "repo_slug")
        (argOptStr args "state") (argOptInt args "limit")),
   ("createPullRequest", fun args =>
      PullRequestService.createPullRequest backend
        (argDisplay args "workspace") (argDisplay args "repo_slug")
        (argDisplay args "title") (argDisplay args "description")
        (argDisplay args "sourceBranch") (argDisplay args "targetBranch")
        (argStrList args "reviewers")),
   ("getPullRequest", fun args =>
      PullRequestService.getPullRequest backend
        (argDisplay args "workspace") (argDisplay args "repo_slug")
        (argDisplay args "pull_request_id")),
   ("updatePullRequest", fun args =>
      PullRequestService.updatePullRequest backend
        (argDisplay args "workspace") (argDisplay args "repo_slug")
        (argDisplay args "pull_request_id")
        (argOptStr args "title") (argOptStr args "description")),
   ("getPullRequestActivity", fun args =>
      PullRequestService.getPullRequestActivity backend
        (argDisplay args "workspace") (argDisplay args "repo_slug")
        (argDisplay args "pull_request_id")),
   ("approvePullRequest", fun args =>
      PullRequestService.approvePullRequest backend
        (argDisplay args "workspace") (argDisplay args "repo_slug")
        (argDisplay args "pull_request_id")),
   ("unapprovePullRequest", fun args =>
      PullRequestService.unapprovePullRequest backend
        (argDisplay args "workspace") (argDisplay args "repo_slug")
        (argDisplay args "pull_request_id")),
   ("declinePullRequest", fun args =>
      PullRequestService.declinePullRequest backend
        (argDisplay args "workspace") (argDisplay args "repo_slug")
        (argDisplay args "pull_request_id") (argOptStr args "message")),
   ("mergePullRequest", fun args =>
      PullRequestService.mergePullRequest backend
        (argDisplay args "workspace") (argDisplay args "repo_slug")
        (argDisplay args "pull_request_id")
        (argOptStr args "message") (argOptStr args "strategy")),
   ("getPullRequestComments", fun args =>
      PullRequestService.getPullRequestComments backend
        (argDisplay args "workspace") (argDisplay args "repo_slug")
        (argDisplay args "pull_request_id")),
   ("getPullRequestDiff", fun args =>
      PullRequestService.getPullRequestDiff backend
        (argDisplay args "workspace") (argDisplay args "repo_slug")
        (argDisplay args "pull_request_id")),
   ("getPullRequestCommits", fun args =>
      PullRequestService.getPullRequestCommits backend
        (argDisplay args "workspace") (argDisplay args "repo_slug")
        (argDisplay args "pull_request_id")),
   ("getRepositoryBranchingModel", fun args =>
      BranchingModelService.getRepositoryBranchingModel backend
        (argDisplay args "workspace") (argDisplay args "repo_slug")),
   ("getRepositoryBranchingModelSettings", fun args =>
      BranchingModelService.getRepositoryBranchingModelSettings backend
        (argDisplay args "workspace") (argDisplay args "repo_slug")),
   ("updateRepositoryBranchingModelSettings", fun args =>
      BranchingModelService.updateRepositoryBranchingModelSettings backend
        (argDisplay args "workspace") (argDisplay args "repo_slug")
        (args.getProp "development") (args.getProp "production")
        (args.getProp "branch_types")),
   ("getEffectiveRepositoryBranchingModel", fun args =>
      BranchingModelService.getEffectiveRepositoryBranchingModel backend
        (argDisplay args "workspace") (argDisplay args "repo_slug")),
   ("getProjectBranchingModel", fun args =>
      BranchingModelService.getProjectBranchingModel backend
        (argDisplay args "workspace") (argDisplay args "project_key")),
   ("getProjectBranchingModelSettings", fun args =>
      BranchingModelService.getProjectBranchingModelSettings backend
        (argDisplay args "workspace") (argDisplay args "project_key")),
   ("updateProjectBranchingModelSettings", fun args =>
      BranchingModelService.updateProjectBranchingModelSettings backend
        (argDisplay args "workspace") (argDisplay args "project_key")
        (args.getProp "development") (args.getProp "production")
        (args.getProp "branch_types"))]

/-- The extraction chain of the dispatcher's catch block for axios errors
(index.ts:274-278):
`error.response?.data?.error?.message || error.response?.data?.message ||
error.message || "Unknown API error"` under JS truthiness. -/
def axiosErrorMessage (e : AxiosError) : String :=
  let respData := match e.response with | some r => r.data | none => .undefined
  let nested := (respData.getProp "error").getProp "message"
  let topLevel := respData.getProp "message"
  if nested.truthy then nested.toDisplayString
  else if topLevel.truthy then topLevel.toDisplayString
  else if !e.message.isEmpty then e.message
  else "Unknown API error"

/-- The dispatcher's catch block (index.ts:267-285): an axios error is
rewrapped as `InternalError` via the extraction chain; every other error —
including the `McpError`s the services already built — is rethrown as-is. -/
def dispatchCatch : JsError → JsError
  | .axios e => .mcp .InternalError ("Bitbucket API error: " ++ axiosErrorMessage e)
  | e => e

/-- What a dispatch resolves with: a tool result from a handler, or the raw
value produced by invoking an inherited non-handler property. -/
inductive DispatchValue where
  | toolResult (r : McpResponse) : DispatchValue
  | rawValue (j : Json) : DispatchValue

/-- The callable methods of `Object.prototype` whose invocation with an
`undefined` receiver throws a `TypeError` in strict mode. -/
def objectProtoMethods : List String :=
  ["hasOwnProperty", "isPrototypeOf", "propertyIsEnumerable", "toLocaleString",
   "valueOf", "__defineGetter__", "__defineSetter__", "__lookupGetter__",
   "__lookupSetter__"]

/-- The CallTool request handler (index.ts:252-287). The handler lookup
`this.toolHandlers[name]` is plain bracket access on an object literal, so a
name that is not an own key can still resolve to an inherited property of
`Object.prototype`: `"constructor"` yields the `Object` constructor (calling
it returns the argument object), `"toString"` yields a function returning
"[object Undefined]" for an undefined receiver, `"__proto__"` yields the
(non-callable) prototype object, and the other prototype methods throw a
`TypeError` when called. Only a name that resolves to nothing falsy-fails the
`if (!handler)` guard and raises `MethodNotFound`; every raised error then
passes through the catch block (`dispatchCatch`). -/
def dispatch (cfg : BitbucketConfig) (backend : Backend)
    (name : String) (argsArg : Option Json) : Except JsError DispatchValue :=
  let args := argsArg.getD (Json.obj [])
  match (toolHandlerList cfg backend).lookup name with
  | some handler =>
      match handler args with
      | .ok r => .ok (.toolResult r)
      | .error e => .error (dispatchCatch e)
  | none =>
      if name = "constructor" then .ok (.rawValue args)
      else if name = "toString" then .ok (.rawValue (.str "[object Undefined]"))
      else if name = "__proto__" then
        .error (dispatchCatch (.typeError "handler is not a function"))
      else if name ∈ objectProtoMethods then
        .error (dispatchCatch (.typeError "Cannot convert undefined or null to object"))
      else
        .error (dispatchCatch (.mcp .MethodNotFound ("Unknown tool: " ++ name)))

/-- The MCP error code a dispatch surfaces to the caller, when it fails with
an `McpError`. -/
def surfacedErrorCode : Except JsError DispatchValue → Option ErrorCode
  | .error (.mcp code _) => some code
  | _ => none

/-- The MCP error message a dispatch surfaces to the caller, when it fails
with an `McpError`. -/
def surfacedErrorMessage : Except JsError DispatchValue → Option String
  | .error (.mcp _ msg) => some msg
  | _ => none

/-! ## Concrete fixtures used by the closed theorems -/

/-- A configuration with no default workspace. -/
def cfgNoDefault : BitbucketConfig :=
  ⟨"https://api.bitbucket.org/2.0", some "sample-token", none, none, none⟩

/-- A configuration whose default workspace is "acme". -/
def cfgAcme : BitbucketConfig :=
  ⟨"https://api.bitbucket.org/2.0", some "sample-token", none, none, some "acme"⟩

/-- A backend on which every call fails with a bare network error. -/
def backendUnreachable : Backend :=
  fun _ => .error ⟨"network error", none, none⟩

/-- A backend that serves exactly `GET /repositories/acme` — the default
workspace's repositories collection — with an empty `values` array, and
rejects every other request. -/
def backendAcmeOnly : Backend :=
  fun req =>
    if req.method = "GET" ∧ req.url = "/repositories/acme" then
      .ok ⟨200, "OK", .obj [("values", .arr [])], []⟩
    else
      .error ⟨"unexpected request", none, none⟩

/-- A simulated backend 401 failure whose response body is
`(error: (message: "Invalid credentials"))`. -/
def err401 : AxiosError :=
  ⟨"Request failed with status code 401",
   some ⟨401, "Unauthorized",
     .obj [("error", .obj [("message", .str "Invalid credentials")])], []⟩,
   none⟩

/-- A backend on which every call fails with `err401`. -/
def backend401 : Backend := fun _ => .error err401

/-! ## Claim theorems -/

/-- C1: the claim says every unregistered tool name — including the
prototype property names "constructor" and "__proto__" — fails with a
MethodNotFound-class error. The code's lookup `this.toolHandlers[name]` is
plain bracket access on an object literal, so the inherited properties of
`Object.prototype` satisfy the `if (!handler)` guard: dispatching
"constructor" invokes the inherited `Object` constructor and RESOLVES with
the argument object, and "__proto__" fails with a TypeError — neither is a
MethodNotFound error. A name that resolves to nothing does fail with
MethodNotFound, confirming the guard's intent and isolating the slip. -/
theorem dispatch_prototype_names_bypass_MethodNotFound :
    dispatch cfgAcme backendUnreachable "constructor" (some (Json.obj [])) =
      .ok (.rawValue (Json.obj []))
    ∧ surfacedErrorCode
        (dispatch cfgAcme backendUnreachable "constructor" (some (Json.obj []))) = none
    ∧ surfacedErrorCode
        (dispatch cfgAcme backendUnreachable "__proto__" (some (Json.obj []))) = none
    ∧ surfacedErrorCode
        (dispatch cfgAcme backendUnreachable "doesNotExist" (some (Json.obj []))) =
      some .MethodNotFound
    ∧ surfacedErrorMessage
        (dispatch cfgAcme backendUnreachable "doesNotExist" (some (Json.obj []))) =
      some "Unknown tool: doesNotExist" :=
  ⟨rfl, rfl, rfl, rfl, rfl⟩

/-- C2: the claim says `listRepositories` with no workspace argument and no
configured default surfaces an InvalidParams-class error. The code does
construct `McpError(InvalidParams, ...)` — but inside the method's own `try`
block, whose catch rewraps everything it catches as `InternalError`, so the
caller receives InternalError whose message still embeds the dead
"MCP error -32602" text. With a configured default the call succeeds and
targets the default workspace's repositories collection (the fixture backend
accepts only `GET /repositories/acme`). -/
theorem listRepositories_missing_workspace_surfaces_InternalError :
    RepositoryService.listRepositoriesTry cfgNoDefault backendUnreachable none none =
      .error (.mcp .InvalidParams "Workspace must be provided either as a parameter or through BITBUCKET_WORKSPACE environment variable")
    ∧ surfacedErrorCode
        (dispatch cfgNoDefault backendUnreachable "listRepositories" (some (Json.obj []))) =
      some .InternalError
    ∧ surfacedErrorCode
        (dispatch cfgNoDefault backendUnreachable "listRepositories" (some (Json.obj []))) ≠
      some .InvalidParams
    ∧ surfacedErrorMessage
        (dispatch cfgNoDefault backendUnreachable "listRepositories" (some (Json.obj []))) =
      some "Failed to list repositories: MCP error -32602: Workspace must be provided either as a parameter or through BITBUCKET_WORKSPACE environment variable"
    ∧ dispatch cfgAcme backendAcmeOnly "listRepositories" (some (Json.obj [])) =
      .ok (.toolResult (textResult (Json.arr []).stringify)) :=
  ⟨rfl, rfl, by decide, rfl, rfl⟩

/-- C3 counterexample: the claim says that for a simulated backend 401 whose
body is `(error: (message: "Invalid credentials"))` the surfaced protocol
error message contains "Invalid credentials". In fact the service's catch
wraps the axios error with the axios error's own message before the
dispatcher's extraction chain can see it, so the surfaced message is the
generic status text and does not contain "Invalid credentials". -/
theorem backend401_message_not_extracted :
    surfacedErrorMessage
        (dispatch cfgAcme backend401 "getPullRequests"
          (some (Json.obj [("workspace", .str "acme"), ("repo_slug", .str "demo")]))) =
      some "Failed to get pull requests: Request failed with status code 401"
    ∧ strContains "Failed to get pull requests: Request failed with status code 401"
        "Invalid credentials" = false
    ∧ surfacedErrorCode
        (dispatch cfgAcme backend401 "getPullRequests"
          (some (Json.obj [("workspace", .str "acme"), ("repo_slug", .str "demo")]))) =
      some .InternalError :=
  ⟨rfl, by decide, rfl⟩

/-- C3 (amended): for every backend failure of `getPullRequests` the
surfaced error is InternalError-class, but its message is
"Failed to get pull requests: " followed by the axios error's own message —
not the nested `error.message` of the response body. The dispatcher's
extraction chain (nested `error.message`, then top-level `message`, then a
generic fallback) exists and would extract the nested message, but it fires
only for an axios error reaching the dispatcher's catch directly, and the
services rethrow only `McpError`s, which the dispatcher catch passes through
unchanged. -/
theorem backendFailure_surfaces_service_wrapped_InternalError
    (e : AxiosError) (cfg : BitbucketConfig) (args : Json) :
    dispatch cfg (fun _ => .error e) "getPullRequests" (some args) =
      .error (.mcp .InternalError ("Failed to get pull requests: " ++ e.message))
    ∧ (∀ code msg, dispatchCatch (.mcp code msg) = .mcp code msg)
    ∧ (∀ a : AxiosError, dispatchCatch (.axios a) =
        .mcp .InternalError ("Bitbucket API error: " ++ axiosErrorMessage a))
    ∧ axiosErrorMessage err401 = "Invalid credentials" :=
  ⟨rfl, fun _ _ => rfl, fun _ => rfl, rfl⟩

/-- C4: `updatePullRequest` sends a PUT whose body holds exactly the
provided optional fields: with only `title` set the body is exactly the one
title field and the `description` key is absent (never null or empty); in
general the body's keys are precisely the provided parameters. -/
theorem updatePullRequest_title_only_omits_description
    (workspace repo_slug pull_request_id t : String) :
    PullRequestService.updatePullRequestData (some t) none = [("title", Json.str t)]
    ∧ (PullRequestService.updatePullRequestData (some t) none).lookup "description" = none
    ∧ (PullRequestService.updatePullRequestRequest workspace repo_slug pull_request_id
        (some t) none).body = some (.obj [("title", Json.str t)])
    ∧ (PullRequestService.updatePullRequestRequest workspace repo_slug pull_request_id
        (some t) none).method = "PUT"
    ∧ (∀ title description : Option String,
        (PullRequestService.updatePullRequestData title description).map Prod.fst =
          (match title with | some _ => ["title"] | none => []) ++
            (match description with | some _ => ["description"] | none => [])) :=
  ⟨rfl, rfl, rfl, rfl, by
    intro title description
    cases title <;> cases description <;> rfl⟩

/-- C7: `mergePullRequest` with `strategy="squash"` sends a POST whose body
carries `merge_strategy: "squash"`; the `merge_strategy` key never carries
another value, and when no strategy is provided the body has no
`merge_strategy` field at all. When the optional commit message is not
itself one of the other two strategy strings, no field of the body carries
"merge-commit" or "fast-forward". -/
theorem mergePullRequest_strategy_squash
    (workspace repo_slug pull_request_id : String) (message : Option String) :
    (PullRequestService.mergePullRequestData message (some "squash")).lookup "merge_strategy" =
      some (.str "squash")
    ∧ (∀ v, ("merge_strategy", v) ∈ PullRequestService.mergePullRequestData message (some "squash") →
        v = .str "squash")
    ∧ (PullRequestService.mergePullRequestData message none).lookup "merge_strategy" = none
    ∧ ((message ≠ some "merge-commit" ∧ message ≠ some "fast-forward") →
        ∀ p ∈ PullRequestService.mergePullRequestData message (some "squash"),
          p.2 ≠ Json.str "merge-commit" ∧ p.2 ≠ Json.str "fast-forward")
    ∧ (PullRequestService.mergePullRequestRequest workspace repo_slug pull_request_id
        message (some "squash")).method = "POST"
    ∧ (PullRequestService.mergePullRequestRequest workspace repo_slug pull_request_id
        message (some "squash")).body =
      some (.obj (PullRequestService.mergePullRequestData message (some "squash"))) := by
  refine ⟨?_, ?_, ?_, ?_, rfl, rfl⟩
  · cases hm : strTruthy message <;>
      simp [PullRequestService.mergePullRequestData, hm, List.lookup]
  · intro v hv
    cases hm : strTruthy message <;>
      simp [PullRequestService.mergePullRequestData, hm] at hv <;>
      simp [hv]
  · cases hm : strTruthy message <;>
      simp [PullRequestService.mergePullRequestData, hm, List.lookup]
  · rintro ⟨h1, h2⟩ p hp
    rcases message with _ | m
    · simp [PullRequestService.mergePullRequestData, strTruthy] at hp
      simp [hp]
    · have hm1 : m ≠ "merge-commit" := fun h => h1 (by rw [h])
      have hm2 : m ≠ "fast-forward" := fun h => h2 (by rw [h])
      cases hm : strTruthy (some m) <;>
        simp [PullRequestService.mergePullRequestData, hm] at hp
      · simp [hp]
      · rcases hp with hp | hp <;> simp [hp, hm1, hm2]

/-- C7 witness: the theorem applied at a concrete call whose commit message
is neither of the other two strategy values. -/
theorem mergePullRequest_strategy_squash_witness :
    (PullRequestService.mergePullRequestData (some "ship it") (some "squash")).lookup
      "merge_strategy" = some (.str "squash")
    ∧ ∀ p ∈ PullRequestService.mergePullRequestData (some "ship it") (some "squash"),
        p.2 ≠ Json.str "merge-commit" ∧ p.2 ≠ Json.str "fast-forward" := by
  obtain ⟨h1, _, _, h4, _, _⟩ :=
    mergePullRequest_strategy_squash "acme" "demo" "7" (some "ship it")
  exact ⟨h1, h4 (by decide)⟩

/-- C8: a successful `unapprovePullRequest` issues a DELETE and returns the
fixed confirmation text, regardless of the backend's response body. -/
theorem unapprovePullRequest_fixed_confirmation
    (workspace repo_slug pull_request_id : String) (resp : AxiosResponse) :
    PullRequestService.unapprovePullRequest (fun _ => .ok resp)
        workspace repo_slug pull_request_id =
      .ok (textResult "Pull request approval removed successfully.")
    ∧ (PullRequestService.unapprovePullRequestRequest workspace repo_slug
        pull_request_id).method = "DELETE" :=
  ⟨rfl, rfl⟩

/-- C9: the key list of the dispatcher's handler map equals, in order, the
21 pairwise-distinct tool names of the static `TOOL_DEFINITIONS` registry:
every advertised tool is dispatchable and every dispatchable name is
advertised. -/
theorem toolHandlers_match_TOOL_DEFINITIONS (cfg : BitbucketConfig) (backend : Backend) :
    (toolHandlerList cfg backend).map Prod.fst = TOOL_DEFINITIONS_names
    ∧ TOOL_DEFINITIONS_names.Nodup
    ∧ TOOL_DEFINITIONS_names.length = 21 :=
  ⟨rfl, by decide, rfl⟩

/-- C6: every list operation places exactly the backend response's `values`
array in the returned tool result — the serialized payload is the `values`
array itself, with no extra wrapping and no dropped items — for a `values`
array of any length. -/
theorem listEndpoints_return_values_exactly
    (cfg : BitbucketConfig) (workspace repo_slug pull_request_id : String)
    (state : Option String) (limitArg : Option Int)
    (resp : AxiosResponse) (vs : List Json)
    (hvals : resp.data.getProp "values" = .arr vs)
    (hws : workspace.isEmpty = false) :
    RepositoryService.listRepositories cfg (fun _ => .ok resp) (some workspace) limitArg =
      .ok (textResult (Json.arr vs).stringify)
    ∧ PullRequestService.getPullRequests (fun _ => .ok resp) workspace repo_slug
        state limitArg = .ok (textResult (Json.arr vs).stringify)
    ∧ PullRequestService.getPullRequestActivity (fun _ => .ok resp) workspace repo_slug
        pull_request_id = .ok (textResult (Json.arr vs).stringify)
    ∧ PullRequestService.getPullRequestComments (fun _ => .ok resp) workspace repo_slug
        pull_request_id = .ok (textResult (Json.arr vs).stringify)
    ∧ PullRequestService.getPullRequestCommits (fun _ => .ok resp) workspace repo_slug
        pull_request_id = .ok (textResult (Json.arr vs).stringify) := by
  have hws' : strTruthy (some workspace) = true := by simp [strTruthy, hws]
  refine ⟨?_, ?_, ?_, ?_, ?_⟩
  · simp [RepositoryService.listRepositories, RepositoryService.listRepositoriesTry,
      serviceCatch, callBackend, hws', hvals]
  · rw [← hvals]; exact rfl
  · rw [← hvals]; exact rfl
  · rw [← hvals]; exact rfl
  · rw [← hvals]; exact rfl

/-- A sample backend response carrying two repositories under `values`. -/
def resp2 : AxiosResponse :=
  ⟨200, "OK",
    .obj [("values", .arr [.obj [("name", .str "repo-a")], .obj [("name", .str "repo-b")]])],
    []⟩

/-- A sample backend response carrying an empty `values` array. -/
def respEmpty : AxiosResponse :=
  ⟨200, "OK", .obj [("values", .arr [])], []⟩

/-- A sample backend response carrying one commit under `values`. -/
def resp1 : AxiosResponse :=
  ⟨200, "OK", .obj [("values", .arr [.str "c1"])], []⟩

/-- C6 witness: the theorem applied at concrete backend arrays of two, zero
and one elements. -/
theorem listEndpoints_return_values_exactly_witness :
    RepositoryService.listRepositories cfgAcme (fun _ => .ok resp2) (some "acme") none =
      .ok (textResult (Json.arr
        [.obj [("name", .str "repo-a")], .obj [("name", .str "repo-b")]]).stringify)
    ∧ PullRequestService.getPullRequests (fun _ => .ok respEmpty) "acme" "demo" none none =
      .ok (textResult (Json.arr []).stringify)
    ∧ PullRequestService.getPullRequestCommits (fun _ => .ok resp1) "acme" "demo" "7" =
      .ok (textResult (Json.arr [.str "c1"]).stringify) := by
  refine ⟨?_, ?_, ?_⟩
  · exact (listEndpoints_return_values_exactly cfgAcme "acme" "demo" "7" none none resp2
      [.obj [("name", .str "repo-a")], .obj [("name", .str "repo-b")]] rfl rfl).1
  · exact (listEndpoints_return_values_exactly cfgAcme "acme" "demo" "7" none none respEmpty
      [] rfl rfl).2.1
  · exact (listEndpoints_return_values_exactly cfgAcme "acme" "demo" "7" none none resp1
      [.str "c1"] rfl rfl).2.2.2.2

/-- C10: for an input error with a (truthy) `response` property,
`sanitizeError` returns an object with exactly the fields `message`,
`status` and `statusText` — the response body and headers are omitted; for
a plain `Error` without a response, the observable fields are `message` and
`name`, with `stack` present only when `NODE_ENV` is not "production". -/
theorem sanitizeError_shapes (nodeEnvProduction : Bool) (e : JsErrorView) :
    (∀ r, e.response = some r → e.raw.truthy = true →
      sanitizeError nodeEnvProduction e =
        .obj [("message", .str e.message), ("status", .num r.status),
          ("statusText", .str r.statusText)])
    ∧ (e.response = none → e.raw.truthy = true → e.isError = true →
      (sanitizeError nodeEnvProduction e).definedProps =
        [("message", .str e.message), ("name", .str e.name)] ++
          (if nodeEnvProduction then [] else [("stack", .str e.stack)])) := by
  constructor
  · intro r hr htr
    simp [sanitizeError, hr, htr]
  · intro hr htr hie
    cases nodeEnvProduction <;>
      simp [sanitizeError, hr, htr, hie, Json.definedProps, List.filter]

/-- A sample axios-style error object carrying a response with a body. -/
def eRespSample : JsErrorView :=
  ⟨.obj [], "Request failed with status code 401", "AxiosError", "trace-line",
    some ⟨401, "Unauthorized", .obj [("secret", .str "x")], []⟩, true⟩

/-- A sample plain Error without a response. -/
def ePlainSample : JsErrorView :=
  ⟨.obj [], "boom", "Error", "trace-line", none, true⟩

/-- C10 witness: the theorem applied in production mode to a concrete
response-bearing error and a concrete plain error. -/
theorem sanitizeError_shapes_witness :
    sanitizeError true eRespSample =
      .obj [("message", .str "Request failed with status code 401"),
        ("status", .num 401), ("statusText", .str "Unauthorized")]
    ∧ (sanitizeError true ePlainSample).definedProps =
      [("message", .str "boom"), ("name", .str "Error")] := by
  refine ⟨(sanitizeError_shapes true eRespSample).1 _ rfl rfl, ?_⟩
  have h := (sanitizeError_shapes true ePlainSample).2 rfl rfl rfl
  simpa using h

/-- C5 counterexample: the claim says the backend-client interceptors log
method, path and status only, and that bodies never appear in any record.
The base client's request interceptor also logs the query params, and the
legacy `BitbucketAPI` client's error interceptor logs the RAW response body
under `data`. -/
theorem interceptor_logs_raw_response_body :
    (BitbucketAPI.bitbucketApiErrorLogRecord
        ⟨"Request failed with status code 500",
          some ⟨500, "Internal Server Error",
            .obj [("access_token", .str "s3cr3t-value")], []⟩,
          some ⟨"GET", "/repositories/acme", [], [], none⟩⟩).meta.lookup "data" =
      some (Json.obj [("access_token", Json.str "s3cr3t-value")])
    ∧ (BaseService.requestLogRecord
        ⟨"get", "/repositories/acme", [("limit", Json.num 10)], [], none⟩).meta.lookup
        "params" = some (Json.obj [("limit", Json.num 10)]) :=
  ⟨rfl, rfl⟩

/-- C5 (amended): the base client's interceptors log exactly
method/url/params on requests, status/url on successful responses, and
status/statusText/url/method on error responses — never bodies or auth
material; but the legacy `BitbucketAPI` client's error interceptor logs
status/message/data/url, where `data` is the raw response body whenever a
response is present. -/
theorem interceptor_record_fields
    (req : HttpRequest) (status : Int) (url : String) (e : AxiosError) :
    (BaseService.requestLogRecord req).meta.map Prod.fst = ["method", "url", "params"]
    ∧ (BaseService.responseLogRecord status url).meta.map Prod.fst = ["status", "url"]
    ∧ (BaseService.apiErrorLogRecord e).meta.map Prod.fst =
      ["status", "statusText", "url", "method"]
    ∧ (BitbucketAPI.bitbucketApiErrorLogRecord e).meta.map Prod.fst =
      ["status", "message", "data", "url"]
    ∧ (∀ r, e.response = some r →
        (BitbucketAPI.bitbucketApiErrorLogRecord e).meta.lookup "data" = some r.data) := by
  refine ⟨rfl, rfl, rfl, rfl, ?_⟩
  intro r hr
  simp [BitbucketAPI.bitbucketApiErrorLogRecord, hr, List.lookup]

/-- A sample axios error with a JSON response body, for the C5 witness. -/
def errWitness : AxiosError :=
  ⟨"Request failed with status code 500",
    some ⟨500, "Internal Server Error", .obj [("values", .arr [])], []⟩, none⟩

/-- C5 witness: the amended theorem applied at a concrete error whose
response is present. -/
theorem interceptor_record_fields_witness :
    (BitbucketAPI.bitbucketApiErrorLogRecord errWitness).meta.lookup "data" =
      some (Json.obj [("values", Json.arr [])]) :=
  (interceptor_record_fields ⟨"GET", "/x", [], [], none⟩ 200 "/x" errWitness).2.2.2.2 _ rfl

end BitbucketMcp
